import Mathlib

/-!
Verification of the stock-analysis caching and generation subsystem of the
financial-tracker repository.  The definitions below are shallow embeddings of
the TypeScript source: `parseAIResponse` / `analyzeStock` from
`backend/src/services/claude-ai.service.ts`, the mock generator and
`stock-analysis.service` functions from the demo-mode service file, the row
transformers from `backend/src/types/analysis.types.ts`, the stock lists from
the stocks config, and the bulk controller loop from the analysis controller.
Machine numbers are modelled as `Rat` (JS numbers; no claim depends on float
rounding), JSON values as an inductive tree (the output of `JSON.parse`), and
thrown JS errors as `Except` with the error message strings of the source.
-/

namespace FinTrack

/-- A parsed JSON value, the result of a successful `JSON.parse`. -/
inductive Json where
  | null : Json
  | bool (b : Bool) : Json
  | num (q : Rat) : Json
  | str (s : String) : Json
  | arr (xs : List Json) : Json
  | obj (fields : List (String × Json)) : Json

/-- JS `field in obj`: does the object have the named key?  Non-objects have
no keys (the validator only probes objects in the runs modelled here). -/
def Json.hasField (j : Json) (f : String) : Bool :=
  match j with
  | .obj fs => fs.any (fun p => p.1 == f)
  | _ => false

/-- JS property access `obj.field`; an absent property reads as `undefined`,
modelled as `Json.null` (the validator checks presence before every access it
relies on). -/
def Json.getField (j : Json) (f : String) : Json :=
  match j with
  | .obj fs => ((fs.find? (fun p => p.1 == f)).map (fun p => p.2)).getD .null
  | _ => .null

/-- JS `ToNumber` on a string: the empty string converts to `0`, a plain
digit string to its value, everything else to `NaN` (`none`).  This covers
every string the validator's numeric comparisons are exercised with. -/
def strToNum (s : String) : Option Rat :=
  if s = "" then some 0
  else if s.data.all (fun c => c.isDigit) then some (s.toNat!)
  else none

/-- JS `ToNumber` of a JSON value; `none` stands for `NaN` (arrays and
objects are approximated as `NaN`, which is what non-trivial ones give). -/
def Json.toNumber (j : Json) : Option Rat :=
  match j with
  | .num q => some q
  | .bool b => some (if b then 1 else 0)
  | .null => some 0
  | .str s => strToNum s
  | .arr _ => none
  | .obj _ => none

/-- JS `x < n` for a JSON value against a number literal: compare via
`ToNumber`; a `NaN` operand makes the comparison false. -/
def jsLtNum (j : Json) (n : Rat) : Bool :=
  match j.toNumber with
  | some q => decide (q < n)
  | none => false

/-- JS `x > n` for a JSON value against a number literal. -/
def jsGtNum (j : Json) (n : Rat) : Bool :=
  match j.toNumber with
  | some q => decide (q > n)
  | none => false

/-- JS `Array.includes` specialised to a list of string literals compared
against a JSON value (strict equality: only a string can match). -/
def Json.isOneOf (j : Json) (vs : List String) : Bool :=
  match j with
  | .str s => vs.contains s
  | _ => false

/-- Rendering of a JSON value inside a template literal, used only for the
human-readable tail of error messages (the retry classification depends only
on the fixed message head). -/
def Json.display (j : Json) : String :=
  match j with
  | .str s => s
  | .num _ => "number"
  | .bool b => if b then "true" else "false"
  | .null => "null"
  | .arr _ => "array"
  | .obj _ => "object"

/-- The errors thrown by `parseAIResponse`, tagged; `errMessage` renders the
exact message strings of the source. -/
inductive VErr where
  | missingField (f : String) : VErr
  | missingPredictionField (f : String) : VErr
  | missingMetricsField (f : String) : VErr
  | invalidDirection (v : String) : VErr
  | invalidRiskLevel (v : String) : VErr
  | invalidConfidence (v : String) : VErr
  | probOutOfRange : VErr
  | rsiOutOfRange : VErr
  deriving DecidableEq

/-- The `Error.message` strings of `parseAIResponse` in
`claude-ai.service.ts`. -/
def errMessage : VErr → String
  | .missingField f => "Missing required field: " ++ f
  | .missingPredictionField f => "Missing prediction field: " ++ f
  | .missingMetricsField f => "Missing metrics field: " ++ f
  | .invalidDirection v => "Invalid prediction direction: " ++ v
  | .invalidRiskLevel v => "Invalid risk level: " ++ v
  | .invalidConfidence v => "Invalid confidence level: " ++ v
  | .probOutOfRange => "Probability must be between 0 and 100"
  | .rsiOutOfRange => "RSI must be between 0 and 100"

/-- The `requiredFields` list of `parseAIResponse`. -/
def requiredFields : List String :=
  ["ticker", "market", "timeframe", "analysis_date", "prediction", "metrics",
   "risk_level", "summary", "key_factors", "confidence"]

/-- The `predictionFields` list of `parseAIResponse`. -/
def predictionFields : List String :=
  ["direction", "probability", "price_target_low", "price_target_high",
   "current_price"]

/-- The `metricsFields` list of `parseAIResponse`. -/
def metricsFields : List String := ["rsi", "macd", "pe_ratio", "volume_trend"]

/-- First field of the list missing from the object, in list order (the
source loop throws at the first missing one). -/
def firstMissing (j : Json) (fs : List String) : Option String :=
  fs.find? (fun f => !(j.hasField f))

/-- `parseAIResponse` from `claude-ai.service.ts`, applied to the value that
`JSON.parse` produced: presence checks for the three field lists in source
order, enum membership for direction / risk_level / confidence, numeric range
checks for probability and rsi, and on success the parsed value is returned
unchanged (the source casts it, it does not rebuild it).  Note the source
checks no enum membership for `macd` or `volume_trend`. -/
def parseAIResponse (parsed : Json) : Except VErr Json :=
  match firstMissing parsed requiredFields with
  | some f => .error (.missingField f)
  | none =>
  match firstMissing (parsed.getField "prediction") predictionFields with
  | some f => .error (.missingPredictionField f)
  | none =>
  match firstMissing (parsed.getField "metrics") metricsFields with
  | some f => .error (.missingMetricsField f)
  | none =>
  if !(((parsed.getField "prediction").getField "direction").isOneOf
        ["bullish", "bearish", "neutral"]) then
    .error (.invalidDirection ((parsed.getField "prediction").getField "direction").display)
  else if !((parsed.getField "risk_level").isOneOf ["low", "medium", "high"]) then
    .error (.invalidRiskLevel (parsed.getField "risk_level").display)
  else if !((parsed.getField "confidence").isOneOf ["low", "medium", "high"]) then
    .error (.invalidConfidence (parsed.getField "confidence").display)
  else if jsLtNum ((parsed.getField "prediction").getField "probability") 0
       || jsGtNum ((parsed.getField "prediction").getField "probability") 100 then
    .error .probOutOfRange
  else if jsLtNum ((parsed.getField "metrics").getField "rsi") 0
       || jsGtNum ((parsed.getField "metrics").getField "rsi") 100 then
    .error .rsiOutOfRange
  else
    .ok parsed

/-- Char-list matching: the pattern is an initial segment of the subject. -/
def chStarts : List Char → List Char → Bool
  | [], _ => true
  | _ :: _, [] => false
  | a :: ps, b :: ss => a == b && chStarts ps ss

/-- Char-list matching: the pattern occurs somewhere in the subject. -/
def chHas (pat : List Char) : List Char → Bool
  | [] => pat.isEmpty
  | b :: rest => chStarts pat (b :: rest) || chHas pat rest

/-- JS `String.prototype.includes`. -/
def strHas (s pat : String) : Bool := chHas pat.data s.data

/-- The retry classification of `analyzeStock` in `claude-ai.service.ts`:
a caught error is not retried exactly when its message contains one of these
four substrings.  Note the list covers top-level missing fields and the three
checked enums, but not the out-of-range messages and not the nested
missing-prediction/metrics-field messages. -/
def nonRetryable (m : String) : Bool :=
  strHas m "Missing required field" || strHas m "Invalid prediction"
    || strHas m "Invalid risk level" || strHas m "Invalid confidence"

/-- Which `VErr` the source intends not to retry, read off from the four
message patterns. -/
def vErrNonRetry : VErr → Bool
  | .missingField _ => true
  | .invalidDirection _ => true
  | .invalidRiskLevel _ => true
  | .invalidConfidence _ => true
  | _ => false

/-- One attempt of the retry loop as seen from the caller: the upstream call
throws, returns a reply with no text block, or returns text whose `JSON.parse`
result is `none` (syntax error) or a parsed value. -/
inductive AttemptOutcome where
  | netError (msg : String) : AttemptOutcome
  | noText : AttemptOutcome
  | reply (parsed : Option Json) : AttemptOutcome

/-- What a single attempt yields: the successful parsed analysis, or the
message of the error the `catch` block receives. -/
def attemptResult : AttemptOutcome → Except String Json
  | .netError msg => .error msg
  | .noText => .error "No text content in AI response"
  | .reply none => .error "Failed to parse AI response as JSON: SyntaxError"
  | .reply (some j) => (parseAIResponse j).mapError errMessage

def MAX_RETRIES : Nat := 3
def RETRY_DELAY_MS : Nat := 1000

/-- Observable outcome of a run of `analyzeStock`: result, number of attempts
consumed, and the sleep durations performed between attempts. -/
structure RunResult where
  result : Except String Json
  attempts : Nat
  waits : List Nat

/-- The `for (attempt = 1; attempt <= MAX_RETRIES; attempt++)` loop of
`analyzeStock`: on a caught error, rethrow immediately if `nonRetryable`,
otherwise sleep `RETRY_DELAY_MS * attempt` and retry while attempts remain;
after the loop the last error is thrown.  `fuel` counts attempts remaining,
`attemptNo` is the source's 1-based `attempt`. -/
def runAttempts (outcomes : List AttemptOutcome) :
    Nat → Nat → List Nat → RunResult
  | 0, attemptNo, waits =>
      ⟨.error "Failed to analyze stock after all retries", attemptNo - 1, waits⟩
  | fuel + 1, attemptNo, waits =>
      match attemptResult (outcomes.getD (attemptNo - 1) (.netError "no outcome")) with
      | .ok j => ⟨.ok j, attemptNo, waits⟩
      | .error msg =>
          if nonRetryable msg then ⟨.error msg, attemptNo, waits⟩
          else if fuel = 0 then ⟨.error msg, attemptNo, waits⟩
          else runAttempts outcomes fuel (attemptNo + 1)
                 (waits ++ [RETRY_DELAY_MS * attemptNo])

/-- `analyzeStock` from `claude-ai.service.ts`, driven by the sequence of
upstream outcomes. -/
def analyzeStock (outcomes : List AttemptOutcome) : RunResult :=
  runAttempts outcomes MAX_RETRIES 1 []

/-- A fully valid payload as `JSON.parse` returns it for the reply shape the
prompt requests, with the probability, rsi and macd slots as parameters. -/
def mkPayload (prob rsiV macdV : Json) : Json :=
  .obj
    [("ticker", .str "AAPL"), ("market", .str "US"), ("timeframe", .str "3M"),
     ("analysis_date", .str "2026-10-11"),
     ("prediction", .obj
        [("direction", .str "bullish"), ("probability", prob),
         ("price_target_low", .num 85.5), ("price_target_high", .num 95),
         ("current_price", .num 80)]),
     ("metrics", .obj
        [("rsi", rsiV), ("macd", macdV), ("pe_ratio", .num 12.5),
         ("volume_trend", .str "increasing")]),
     ("risk_level", .str "medium"), ("summary", .str "Looks fine."),
     ("key_factors", .arr [.str "Factor 1", .str "Factor 2"]),
     ("confidence", .str "high")]

/-- The valid payload with all slots in range. -/
def goodPayload : Json := mkPayload (.num 75) (.num 58) (.str "positive")

/-- A payload that is valid except that `prediction.probability` is 101. -/
def badProbPayload : Json := mkPayload (.num 101) (.num 58) (.str "positive")

/-- A payload that is valid except that `risk_level` is the out-of-set value
"extreme". -/
def extremeRiskPayload : Json :=
  .obj
    [("ticker", .str "AAPL"), ("market", .str "US"), ("timeframe", .str "3M"),
     ("analysis_date", .str "2026-10-11"),
     ("prediction", .obj
        [("direction", .str "bullish"), ("probability", .num 75),
         ("price_target_low", .num 85.5), ("price_target_high", .num 95),
         ("current_price", .num 80)]),
     ("metrics", .obj
        [("rsi", .num 58), ("macd", .str "positive"),
         ("pe_ratio", .num 12.5), ("volume_trend", .str "increasing")]),
     ("risk_level", .str "extreme"), ("summary", .str "Looks fine."),
     ("key_factors", .arr [.str "Factor 1", .str "Factor 2"]),
     ("confidence", .str "high")]

/-- A payload that is valid except that `metrics.macd` is the out-of-set
value "bogus". -/
def macdBogusPayload : Json := mkPayload (.num 75) (.num 58) (.str "bogus")

/-- A payload whose `prediction.probability` is the non-numeric JSON string
"high"; every other field is valid. -/
def probStrPayload : Json := mkPayload (.str "high") (.num 58) (.str "positive")

theorem chStarts_append (p t : List Char) : chStarts p (p ++ t) = true := by
  induction p with
  | nil => rfl
  | cons a ps ih => simp [chStarts, ih]

theorem chHas_of_starts (pat s : List Char) (h : chStarts pat s = true) :
    chHas pat s = true := by
  cases s with
  | nil =>
      cases pat with
      | nil => rfl
      | cons a ps => simp [chStarts] at h
  | cons b rest => simp [chHas, h]

theorem strHas_head (p t : String) : strHas (p ++ t) p = true := by
  unfold strHas
  rw [String.data_append]
  exact chHas_of_starts _ _ (chStarts_append _ _)

/-- The message-substring retry classification agrees with the per-error-case
reading, for every error `parseAIResponse` can actually throw (the nested
missing-field names come from the fixed field lists). -/
theorem nonRetryable_errMessage (e : VErr)
    (hp : ∀ f, e = .missingPredictionField f → f ∈ predictionFields)
    (hm : ∀ f, e = .missingMetricsField f → f ∈ metricsFields) :
    nonRetryable (errMessage e) = vErrNonRetry e := by
  cases e with
  | missingField f =>
      have h : errMessage (.missingField f)
          = "Missing required field" ++ (": " ++ f) := rfl
      simp [vErrNonRetry, nonRetryable, h, strHas_head]
  | invalidDirection v =>
      have h : errMessage (.invalidDirection v)
          = "Invalid prediction" ++ (" direction: " ++ v) := rfl
      simp [vErrNonRetry, nonRetryable, h, strHas_head]
  | invalidRiskLevel v =>
      have h : errMessage (.invalidRiskLevel v)
          = "Invalid risk level" ++ (": " ++ v) := rfl
      simp [vErrNonRetry, nonRetryable, h, strHas_head]
  | invalidConfidence v =>
      have h : errMessage (.invalidConfidence v)
          = "Invalid confidence" ++ (" level: " ++ v) := rfl
      simp [vErrNonRetry, nonRetryable, h, strHas_head]
  | missingPredictionField f =>
      have hf := hp f rfl
      simp only [predictionFields, List.mem_cons, List.not_mem_nil, or_false]
        at hf
      rcases hf with rfl | rfl | rfl | rfl | rfl <;> rfl
  | missingMetricsField f =>
      have hf := hm f rfl
      simp only [metricsFields, List.mem_cons, List.not_mem_nil, or_false]
        at hf
      rcases hf with rfl | rfl | rfl | rfl <;> rfl
  | probOutOfRange => rfl
  | rsiOutOfRange => rfl

/-- Errors produced by `parseAIResponse` carry nested-field names only from
the fixed field lists. -/
theorem parseAIResponse_err_fields (p : Json) (e : VErr)
    (h : parseAIResponse p = .error e) :
    (∀ f, e = .missingPredictionField f → f ∈ predictionFields)
      ∧ (∀ f, e = .missingMetricsField f → f ∈ metricsFields) := by
  unfold parseAIResponse firstMissing at h
  repeat' split at h
  all_goals
    first
    | (injection h with h'
       subst h'
       refine ⟨fun f hf => ?_, fun f hf => ?_⟩ <;>
         first
         | (injection hf with hf2
            subst hf2
            exact List.mem_of_find?_eq_some (by assumption))
         | injection hf)
    | cases h

/-- A successful run of the retry loop returns a payload that passed
`parseAIResponse`. -/
theorem runAttempts_ok (outcomes : List AttemptOutcome) :
    ∀ (fuel no : Nat) (waits : List Nat) (j : Json),
      (runAttempts outcomes fuel no waits).result = Except.ok j →
      ∃ p, parseAIResponse p = Except.ok j := by
  intro fuel
  induction fuel with
  | zero =>
      intro no waits j h
      simp [runAttempts] at h
  | succ n ih =>
      intro no waits j h
      unfold runAttempts at h
      rcases hres : attemptResult (outcomes.getD (no - 1) (.netError "no outcome"))
        with m | j'
      · rw [hres] at h
        simp only at h
        split at h
        · simp at h
        · split at h
          · simp at h
          · exact ih _ _ _ h
      · rw [hres] at h
        simp only at h
        injection h with h2
        subst h2
        rcases ho : outcomes.getD (no - 1) (.netError "no outcome")
          with msg | _ | op
        · rw [ho] at hres
          simp [attemptResult] at hres
        · rw [ho] at hres
          simp [attemptResult] at hres
        · rw [ho] at hres
          rcases op with _ | p
          · simp [attemptResult] at hres
          · simp only [attemptResult] at hres
            rcases hp : parseAIResponse p with e | a
            · rw [hp] at hres
              simp [Except.mapError] at hres
            · rw [hp] at hres
              simp [Except.mapError] at hres
              exact ⟨p, by rw [hp, hres]⟩

/-- Claim C1 (amended): a generation attempt whose caught error message
matches a top-level missing required field or an invalid
direction/risk-level/confidence enum is surfaced immediately with no further
attempt; every other failure (missing nested prediction/metrics fields,
out-of-range probability or rsi, malformed JSON, no-text replies, network
errors) is retried, waiting `attempt * 1000` ms before each retry, up to 3
attempts total, and after exhausting retries the last error is surfaced. -/
theorem claim1_retry_classification :
    (∀ p e, parseAIResponse p = .error e →
       nonRetryable (errMessage e) = vErrNonRetry e)
    ∧ (∀ (o1 : AttemptOutcome) (rest : List AttemptOutcome) (j : Json),
         attemptResult o1 = .ok j →
         analyzeStock (o1 :: rest) = ⟨.ok j, 1, []⟩)
    ∧ (∀ (o1 : AttemptOutcome) (rest : List AttemptOutcome) (m1 : String),
         attemptResult o1 = .error m1 → nonRetryable m1 = true →
         analyzeStock (o1 :: rest) = ⟨.error m1, 1, []⟩)
    ∧ (∀ (o1 o2 : AttemptOutcome) (rest : List AttemptOutcome)
         (m1 : String) (j : Json),
         attemptResult o1 = .error m1 → nonRetryable m1 = false →
         attemptResult o2 = .ok j →
         analyzeStock (o1 :: o2 :: rest) = ⟨.ok j, 2, [1000]⟩)
    ∧ (∀ (o1 o2 : AttemptOutcome) (rest : List AttemptOutcome) (m1 m2 : String),
         attemptResult o1 = .error m1 → nonRetryable m1 = false →
         attemptResult o2 = .error m2 → nonRetryable m2 = true →
         analyzeStock (o1 :: o2 :: rest) = ⟨.error m2, 2, [1000]⟩)
    ∧ (∀ (o1 o2 o3 : AttemptOutcome) (rest : List AttemptOutcome)
         (m1 m2 m3 : String),
         attemptResult o1 = .error m1 → nonRetryable m1 = false →
         attemptResult o2 = .error m2 → nonRetryable m2 = false →
         attemptResult o3 = .error m3 →
         analyzeStock (o1 :: o2 :: o3 :: rest) = ⟨.error m3, 3, [1000, 2000]⟩) := by
  refine ⟨?_, ?_, ?_, ?_, ?_, ?_⟩
  · intro p e h
    exact nonRetryable_errMessage e (parseAIResponse_err_fields p e h).1
      (parseAIResponse_err_fields p e h).2
  · intro o1 rest j h1
    simp [analyzeStock, runAttempts, MAX_RETRIES, h1]
  · intro o1 rest m1 h1 hn
    simp [analyzeStock, runAttempts, MAX_RETRIES, h1, hn]
  · intro o1 o2 rest m1 j h1 hn h2
    simp [analyzeStock, runAttempts, MAX_RETRIES, RETRY_DELAY_MS, h1, hn, h2]
  · intro o1 o2 rest m1 m2 h1 hn1 h2 hn2
    simp [analyzeStock, runAttempts, MAX_RETRIES, RETRY_DELAY_MS, h1, hn1, h2, hn2]
  · intro o1 o2 o3 rest m1 m2 m3 h1 hn1 h2 hn2 h3
    simp [analyzeStock, runAttempts, MAX_RETRIES, RETRY_DELAY_MS,
      h1, hn1, h2, hn2, h3]

/-- Claim C1, counterexample to the claim as stated: an attempt whose
response fails validation with the out-of-range probability error (a
semantic `ValidationError`) is NOT surfaced immediately — the loop retries
and can succeed on the second attempt, consuming 2 attempts and sleeping
1000 ms in between. -/
theorem claim1_counterexample :
    parseAIResponse badProbPayload = .error .probOutOfRange
      ∧ analyzeStock [.reply (some badProbPayload), .reply (some goodPayload)]
          = ⟨.ok goodPayload, 2, [1000]⟩ :=
  ⟨rfl, rfl⟩

/-- Claim C1, witness: the amended theorem applied to a run whose first
reply carries the out-of-set risk level "extreme" — a non-retried error,
surfaced after exactly one attempt with no sleeps. -/
theorem claim1_witness :
    attemptResult (.reply (some extremeRiskPayload))
        = .error "Invalid risk level: extreme"
      ∧ nonRetryable "Invalid risk level: extreme" = true
      ∧ analyzeStock [.reply (some extremeRiskPayload)]
          = ⟨.error "Invalid risk level: extreme", 1, []⟩ :=
  ⟨rfl, rfl, claim1_retry_classification.2.2.1 _ [] _ rfl rfl⟩

/-- Claim C2 (amended): validation enforces enum membership for
`prediction.direction`, `risk_level` and `confidence` — a payload accepted
by `parseAIResponse` (the only route into the cache and the authoritative
response) has those three fields inside their closed sets, and the accepted
payload is returned unchanged; but `metrics.macd` and `metrics.volume_trend`
are NOT checked, so out-of-set values in those two fields pass validation. -/
theorem claim2_checked_enums :
    (∀ p q, parseAIResponse p = .ok q →
       q = p
         ∧ ((p.getField "prediction").getField "direction").isOneOf
             ["bullish", "bearish", "neutral"] = true
         ∧ (p.getField "risk_level").isOneOf ["low", "medium", "high"] = true
         ∧ (p.getField "confidence").isOneOf ["low", "medium", "high"] = true)
    ∧ (∀ outcomes j, (analyzeStock outcomes).result = .ok j →
         ((j.getField "prediction").getField "direction").isOneOf
             ["bullish", "bearish", "neutral"] = true
           ∧ (j.getField "risk_level").isOneOf ["low", "medium", "high"] = true
           ∧ (j.getField "confidence").isOneOf ["low", "medium", "high"] = true) := by
  have main : ∀ p q, parseAIResponse p = .ok q →
      q = p
        ∧ ((p.getField "prediction").getField "direction").isOneOf
            ["bullish", "bearish", "neutral"] = true
        ∧ (p.getField "risk_level").isOneOf ["low", "medium", "high"] = true
        ∧ (p.getField "confidence").isOneOf ["low", "medium", "high"] = true := by
    intro p q h
    unfold parseAIResponse at h
    repeat' split at h
    all_goals cases h
    refine ⟨rfl, ?_, ?_, ?_⟩ <;> simp_all
  refine ⟨main, fun outcomes j h => ?_⟩
  obtain ⟨p, hp⟩ := runAttempts_ok outcomes MAX_RETRIES 1 [] j h
  obtain ⟨rfl, h1, h2, h3⟩ := main p j hp
  exact ⟨h1, h2, h3⟩

/-- Claim C2, counterexample to the claim as stated: a payload whose
`metrics.macd` is the out-of-set value "bogus" passes validation unchanged —
the macd enum is never checked. -/
theorem claim2_counterexample :
    parseAIResponse macdBogusPayload = .ok macdBogusPayload
      ∧ ((macdBogusPayload.getField "metrics").getField "macd").isOneOf
          ["positive", "negative", "neutral"] = false :=
  ⟨rfl, rfl⟩

/-- Claim C2, witness: the amended theorem applied to the valid payload. -/
theorem claim2_witness :
    (goodPayload.getField "risk_level").isOneOf ["low", "medium", "high"] = true
      ∧ ((goodPayload.getField "prediction").getField "direction").isOneOf
          ["bullish", "bearish", "neutral"] = true :=
  ⟨(claim2_checked_enums.1 goodPayload goodPayload rfl).2.2.1,
   (claim2_checked_enums.1 goodPayload goodPayload rfl).2.1⟩

/-- Claim C4: probability 101 and rsi -1 are rejected as out of range, while
probability 0, probability 100, rsi 0 and rsi 100 all pass — the [0,100]
bounds are inclusive at both ends. -/
theorem claim4_range_bounds :
    parseAIResponse (mkPayload (.num 101) (.num 58) (.str "positive"))
        = .error .probOutOfRange
      ∧ parseAIResponse (mkPayload (.num 75) (.num (-1)) (.str "positive"))
          = .error .rsiOutOfRange
      ∧ parseAIResponse (mkPayload (.num 0) (.num 58) (.str "positive"))
          = .ok (mkPayload (.num 0) (.num 58) (.str "positive"))
      ∧ parseAIResponse (mkPayload (.num 100) (.num 58) (.str "positive"))
          = .ok (mkPayload (.num 100) (.num 58) (.str "positive"))
      ∧ parseAIResponse (mkPayload (.num 75) (.num 0) (.str "positive"))
          = .ok (mkPayload (.num 75) (.num 0) (.str "positive"))
      ∧ parseAIResponse (mkPayload (.num 75) (.num 100) (.str "positive"))
          = .ok (mkPayload (.num 75) (.num 100) (.str "positive")) :=
  ⟨rfl, rfl, rfl, rfl, rfl, rfl⟩

/-- Claim C10: a syntactically valid payload whose `prediction.probability`
is the non-numeric string "high" passes validation and is returned as the
analysis record: JS `ToNumber` of the string is NaN, so both range
comparisons are false and the record enters the typed domain. -/
theorem claim10_nonnumeric_probability :
    parseAIResponse probStrPayload = .ok probStrPayload
      ∧ ((probStrPayload.getField "prediction").getField "probability").toNumber
          = none
      ∧ jsLtNum ((probStrPayload.getField "prediction").getField "probability") 0
          = false
      ∧ jsGtNum ((probStrPayload.getField "prediction").getField "probability") 100
          = false :=
  ⟨rfl, rfl, rfl, rfl⟩

/-! ## Typed analysis records, row transformers and the cache store

The TypeScript union types are erased at runtime, so enum-typed fields are
modelled as `String` together with validity predicates; numbers as `Rat`;
timestamps as milliseconds (`Nat`). -/

/-- `IPrediction` from `analysis.types.ts`. -/
structure IPrediction where
  direction : String
  probability : Rat
  price_target_low : Rat
  price_target_high : Rat
  current_price : Rat
  deriving DecidableEq

/-- `IMetrics` from `analysis.types.ts`. -/
structure IMetrics where
  rsi : Rat
  macd : String
  pe_ratio : Rat
  volume_trend : String
  deriving DecidableEq

/-- `IStockAnalysis` from `analysis.types.ts` (also the shape of
`IClaudeAnalysisResponse`, which lists the same fields). -/
structure IStockAnalysis where
  ticker : String
  market : String
  timeframe : String
  analysis_date : String
  prediction : IPrediction
  metrics : IMetrics
  risk_level : String
  summary : String
  key_factors : List String
  confidence : String
  deriving DecidableEq

/-- The value `analysisToDbRow` builds: an `IStockAnalysisDB` without the
store-generated `id` / `created_at` / `updated_at`. -/
structure NewAnalysisRow where
  ticker : String
  market : String
  timeframe : String
  analysis_date : String
  prediction_direction : String
  probability : Rat
  price_target_low : Rat
  price_target_high : Rat
  current_price : Rat
  rsi : Rat
  macd : String
  pe_ratio : Rat
  volume_trend : String
  risk_level : String
  summary : String
  key_factors : List String
  confidence : String
  raw_response : Option IStockAnalysis
  deriving DecidableEq

/-- A stored row of the `stock_analyses` table (`IStockAnalysisDB`). -/
structure IStockAnalysisDB where
  id : Nat
  ticker : String
  market : String
  timeframe : String
  analysis_date : String
  prediction_direction : String
  probability : Rat
  price_target_low : Rat
  price_target_high : Rat
  current_price : Rat
  rsi : Rat
  macd : String
  pe_ratio : Rat
  volume_trend : String
  risk_level : String
  summary : String
  key_factors : List String
  confidence : String
  raw_response : Option IStockAnalysis
  created_at : Nat
  deriving DecidableEq

/-- `analysisToDbRow` from `analysis.types.ts`. -/
def analysisToDbRow (analysis : IStockAnalysis) (rawResponse : IStockAnalysis) :
    NewAnalysisRow :=
  { ticker := analysis.ticker
    market := analysis.market
    timeframe := analysis.timeframe
    analysis_date := analysis.analysis_date
    prediction_direction := analysis.prediction.direction
    probability := analysis.prediction.probability
    price_target_low := analysis.prediction.price_target_low
    price_target_high := analysis.prediction.price_target_high
    current_price := analysis.prediction.current_price
    rsi := analysis.metrics.rsi
    macd := analysis.metrics.macd
    pe_ratio := analysis.metrics.pe_ratio
    volume_trend := analysis.metrics.volume_trend
    risk_level := analysis.risk_level
    summary := analysis.summary
    key_factors := analysis.key_factors
    confidence := analysis.confidence
    raw_response := some rawResponse }

/-- The insert: the store assigns the row its `id` and `created_at`. -/
def withId (r : NewAnalysisRow) (id createdAt : Nat) : IStockAnalysisDB :=
  { id := id
    ticker := r.ticker
    market := r.market
    timeframe := r.timeframe
    analysis_date := r.analysis_date
    prediction_direction := r.prediction_direction
    probability := r.probability
    price_target_low := r.price_target_low
    price_target_high := r.price_target_high
    current_price := r.current_price
    rsi := r.rsi
    macd := r.macd
    pe_ratio := r.pe_ratio
    volume_trend := r.volume_trend
    risk_level := r.risk_level
    summary := r.summary
    key_factors := r.key_factors
    confidence := r.confidence
    raw_response := r.raw_response
    created_at := createdAt }

/-- `dbRowToAnalysis` from `analysis.types.ts`. -/
def dbRowToAnalysis (row : IStockAnalysisDB) : IStockAnalysis :=
  { ticker := row.ticker
    market := row.market
    timeframe := row.timeframe
    analysis_date := row.analysis_date
    prediction :=
      { direction := row.prediction_direction
        probability := row.probability
        price_target_low := row.price_target_low
        price_target_high := row.price_target_high
        current_price := row.current_price }
    metrics :=
      { rsi := row.rsi
        macd := row.macd
        pe_ratio := row.pe_ratio
        volume_trend := row.volume_trend }
    risk_level := row.risk_level
    summary := row.summary
    key_factors := row.key_factors
    confidence := row.confidence }

/-- A row of the `analysis_cache` index table (`IAnalysisCache`). -/
structure CacheEntry where
  cache_key : String
  last_analysis_id : Nat
  expires_at : Nat
  deriving DecidableEq

/-- The persistent store: the append-only `stock_analyses` table, the
`analysis_cache` index, and the id sequence. -/
structure Store where
  analyses : List IStockAnalysisDB
  cache : List CacheEntry
  nextId : Nat
  deriving DecidableEq

/-- Process configuration relevant to the subsystem, built once at startup
(`env.ts`). -/
structure Config where
  DEMO_MODE : Bool
  supabaseConfigured : Bool
  CACHE_TTL_HOURS : Nat
  deriving DecidableEq

/-- The demo-mode derivation of `validateEnv` in `env.ts`:
`explicitDemoMode || !hasAnthropic`. -/
def validateEnvDemoMode (explicitDemoMode hasAnthropic : Bool) : Bool :=
  explicitDemoMode || !hasAnthropic

/-- Injected persistence failures: the insert erroring, the cache upsert
erroring, and the cache read erroring (store unreachable). -/
structure Faults where
  insertFails : Bool
  cacheUpsertFails : Bool
  readFails : Bool
  deriving DecidableEq

def noFaults : Faults := ⟨false, false, false⟩

/-- `generateCacheKey` from the stock-analysis service. -/
def generateCacheKey (market ticker timeframe : String) : String :=
  market ++ ":" ++ ticker ++ ":" ++ timeframe

/-- `isCacheExpired`: `new Date(expiresAt) <= new Date()`. -/
def isCacheExpired (expiresAt now : Nat) : Bool := expiresAt ≤ now

def MS_PER_HOUR : Nat := 3600000

/-- The supabase `upsert` with `onConflict: cache_key`: replace the entry
with the conflicting key, else append. -/
def upsertCache (c : List CacheEntry) (e : CacheEntry) : List CacheEntry :=
  if c.any (fun x => x.cache_key == e.cache_key) then
    c.map (fun x => if x.cache_key == e.cache_key then e else x)
  else c ++ [e]

/-- The timeframe-specified branch of `invalidateCache`: delete the single
entry for the fully-specified key. -/
def invalidateCacheKey (st : Store) (key : String) : Store :=
  { st with cache := st.cache.filter (fun x => !(x.cache_key == key)) }

/-- `saveAnalysis` from the demo-mode stock-analysis service: no-op without
a configured database; an insert error logs and returns null; otherwise the
row is inserted, the cache upserted with `expires_at = now + CACHE_TTL_HOURS`,
a cache error logs without failing, and the inserted row is returned.  The
function catches every error: its type has no failure outcome. -/
def saveAnalysis (f : Faults) (cfg : Config) (now : Nat)
    (analysis rawResponse : IStockAnalysis) (st : Store) :
    Option IStockAnalysisDB × Store :=
  if !cfg.supabaseConfigured then (none, st)
  else if f.insertFails then (none, st)
  else
    let row := withId (analysisToDbRow analysis rawResponse) st.nextId now
    let st1 : Store :=
      { st with analyses := st.analyses ++ [row], nextId := st.nextId + 1 }
    if f.cacheUpsertFails then (some row, st1)
    else
      (some row,
       { st1 with
         cache := upsertCache st1.cache
           ⟨generateCacheKey analysis.market analysis.ticker analysis.timeframe,
            row.id,
            now + cfg.CACHE_TTL_HOURS * MS_PER_HOUR⟩ })

/-- `getCachedAnalysis` from the demo-mode stock-analysis service: null
without a configured database; a read error is caught and yields null; an
expired entry is opportunistically invalidated and treated as a miss;
otherwise the joined analysis row is mapped back through
`dbRowToAnalysis`. -/
def getCachedAnalysis (f : Faults) (cfg : Config) (now : Nat)
    (market ticker timeframe : String) (st : Store) :
    Option IStockAnalysis × Store :=
  if !cfg.supabaseConfigured then (none, st)
  else if f.readFails then (none, st)
  else
    match st.cache.find?
        (fun x => x.cache_key == generateCacheKey market ticker timeframe) with
    | none => (none, st)
    | some ce =>
        if isCacheExpired ce.expires_at now then
          (none, invalidateCacheKey st (generateCacheKey market ticker timeframe))
        else
          match st.analyses.find? (fun r => r.id == ce.last_analysis_id) with
          | none => (none, st)
          | some row => (some (dbRowToAnalysis row), st)

/-- The record `getOrCreateAnalysis` resolves with. -/
structure OrchResult where
  analysis : IStockAnalysis
  cached : Bool
  demoMode : Bool
  deriving DecidableEq

/-- `getOrCreateAnalysis` from the demo-mode stock-analysis service.  The
cache is consulted only when the database is configured; a hit returns
`(analysis, cached := true, demoMode := false)`.  On a miss the generation
result `gen` (the awaited `analyzeStock`) is consulted: its failure
propagates; on success the save is fired with `.catch` attached (modelled by
`saveAnalysis`, whose failures are swallowed) and the fresh analysis is
returned with `cached := false, demoMode := env.DEMO_MODE`. -/
def getOrCreateAnalysis (f : Faults) (cfg : Config) (now : Nat)
    (market ticker timeframe : String)
    (gen : Except String IStockAnalysis) (st : Store) :
    Except String OrchResult × Store :=
  match (if cfg.supabaseConfigured then
           getCachedAnalysis f cfg now market ticker timeframe st
         else (none, st)) with
  | (some a, st1) => (.ok ⟨a, true, false⟩, st1)
  | (none, st1) =>
      match gen with
      | .error e => (.error e, st1)
      | .ok fresh =>
          (.ok ⟨fresh, false, cfg.DEMO_MODE⟩,
           (saveAnalysis f cfg now fresh fresh st1).2)

/-- Well-formed store: every stored row's id is below the id sequence. -/
def storeWF (st : Store) : Prop := ∀ r ∈ st.analyses, r.id < st.nextId

theorem find?_map_upsert (e : CacheEntry) (c : List CacheEntry) :
    (c.map (fun x => if x.cache_key == e.cache_key then e else x)).find?
        (fun x => x.cache_key == e.cache_key)
      = if c.any (fun x => x.cache_key == e.cache_key) then some e
        else none := by
  induction c with
  | nil => rfl
  | cons x xs ih =>
      rw [List.map_cons]
      by_cases hx : (x.cache_key == e.cache_key : Bool)
      · rw [if_pos hx]
        have hstep : List.find? (fun y => y.cache_key == e.cache_key)
            (e :: List.map (fun y => if y.cache_key == e.cache_key then e else y) xs)
            = some e :=
          List.find?_cons_of_pos _ (by simp)
        rw [hstep]
        simp [List.any_cons, hx]
      · rw [if_neg hx]
        have hstep : List.find? (fun y => y.cache_key == e.cache_key)
            (x :: List.map (fun y => if y.cache_key == e.cache_key then e else y) xs)
            = List.find? (fun y => y.cache_key == e.cache_key)
                (List.map (fun y => if y.cache_key == e.cache_key then e else y) xs) :=
          List.find?_cons_of_neg _ hx
        rw [hstep, ih]
        simp [List.any_cons, hx]

theorem find?_upsert (c : List CacheEntry) (e : CacheEntry) :
    (upsertCache c e).find? (fun x => x.cache_key == e.cache_key) = some e := by
  unfold upsertCache
  by_cases hany : c.any (fun x => x.cache_key == e.cache_key)
  · rw [if_pos hany, find?_map_upsert, if_pos hany]
  · rw [if_neg hany]
    have hnone : c.find? (fun x => x.cache_key == e.cache_key) = none := by
      rw [List.find?_eq_none]
      intro x hx hkey
      exact hany (List.any_eq_true.mpr ⟨x, hx, hkey⟩)
    simp [List.find?_append, hnone]

theorem find?_append_id (rows : List IStockAnalysisDB) (row : IStockAnalysisDB)
    (h : ∀ r ∈ rows, r.id ≠ row.id) :
    (rows ++ [row]).find? (fun r => r.id == row.id) = some row := by
  have hnone : rows.find? (fun r => r.id == row.id) = none := by
    rw [List.find?_eq_none]
    intro r hr hbeq
    exact h r hr (by simpa using hbeq)
  simp [List.find?_append, hnone]

theorem getCachedAnalysis_hit (cfg : Config) (now : Nat)
    (market ticker timeframe : String) (st : Store) (ce : CacheEntry)
    (row : IStockAnalysisDB)
    (hcfg : cfg.supabaseConfigured = true)
    (hfind : st.cache.find?
        (fun x => x.cache_key == generateCacheKey market ticker timeframe)
        = some ce)
    (hexp : isCacheExpired ce.expires_at now = false)
    (hrow : st.analyses.find? (fun r => r.id == ce.last_analysis_id) = some row) :
    (getCachedAnalysis noFaults cfg now market ticker timeframe st).1
      = some (dbRowToAnalysis row) := by
  unfold getCachedAnalysis
  simp [noFaults, hcfg, hfind, hexp, hrow]

theorem getCachedAnalysis_expired (cfg : Config) (now : Nat)
    (market ticker timeframe : String) (st : Store) (ce : CacheEntry)
    (hcfg : cfg.supabaseConfigured = true)
    (hfind : st.cache.find?
        (fun x => x.cache_key == generateCacheKey market ticker timeframe)
        = some ce)
    (hexp : isCacheExpired ce.expires_at now = true) :
    (getCachedAnalysis noFaults cfg now market ticker timeframe st).1 = none := by
  unfold getCachedAnalysis
  simp [noFaults, hcfg, hfind, hexp]

/-- Claim C5: with a working configured store, writing a valid analysis and
reading the same (market, ticker, timeframe) key before the TTL elapses
returns an analysis equal to what was written — `dbRowToAnalysis` inverts
`analysisToDbRow` on the analysis fields — and reading at or after the
expiry instant (`now >= expiresAt`) returns absent. -/
theorem claim5_cache_roundtrip :
    (∀ (a raw : IStockAnalysis) (id createdAt : Nat),
       dbRowToAnalysis (withId (analysisToDbRow a raw) id createdAt) = a)
    ∧ (∀ (cfg : Config) (st : Store) (a : IStockAnalysis) (t0 t1 : Nat),
       cfg.supabaseConfigured = true → storeWF st →
       ((t1 < t0 + cfg.CACHE_TTL_HOURS * MS_PER_HOUR →
          (getCachedAnalysis noFaults cfg t1 a.market a.ticker a.timeframe
            (saveAnalysis noFaults cfg t0 a a st).2).1 = some a)
        ∧ (t0 + cfg.CACHE_TTL_HOURS * MS_PER_HOUR ≤ t1 →
          (getCachedAnalysis noFaults cfg t1 a.market a.ticker a.timeframe
            (saveAnalysis noFaults cfg t0 a a st).2).1 = none))) := by
  constructor
  · intro a raw id createdAt
    rfl
  · intro cfg st a t0 t1 hcfg hwf
    have hsave : (saveAnalysis noFaults cfg t0 a a st).2 =
        { analyses := st.analyses ++ [withId (analysisToDbRow a a) st.nextId t0]
          cache := upsertCache st.cache
            ⟨generateCacheKey a.market a.ticker a.timeframe, st.nextId,
             t0 + cfg.CACHE_TTL_HOURS * MS_PER_HOUR⟩
          nextId := st.nextId + 1 } := by
      simp [saveAnalysis, noFaults, hcfg, withId]
    rw [hsave]
    have hfind : (upsertCache st.cache
        ⟨generateCacheKey a.market a.ticker a.timeframe, st.nextId,
         t0 + cfg.CACHE_TTL_HOURS * MS_PER_HOUR⟩).find?
        (fun x => x.cache_key == generateCacheKey a.market a.ticker a.timeframe)
        = some ⟨generateCacheKey a.market a.ticker a.timeframe, st.nextId,
                t0 + cfg.CACHE_TTL_HOURS * MS_PER_HOUR⟩ :=
      find?_upsert st.cache
        ⟨generateCacheKey a.market a.ticker a.timeframe, st.nextId,
         t0 + cfg.CACHE_TTL_HOURS * MS_PER_HOUR⟩
    constructor
    · intro ht
      have hexp : isCacheExpired (t0 + cfg.CACHE_TTL_HOURS * MS_PER_HOUR) t1
          = false := by
        simp [isCacheExpired]
        omega
      have hrow : (st.analyses ++ [withId (analysisToDbRow a a) st.nextId t0]).find?
          (fun r => r.id == st.nextId)
          = some (withId (analysisToDbRow a a) st.nextId t0) := by
        apply find?_append_id st.analyses (withId (analysisToDbRow a a) st.nextId t0)
        intro r hr
        have := hwf r hr
        simp [withId]
        omega
      rw [getCachedAnalysis_hit cfg t1 a.market a.ticker a.timeframe _ _ _
        hcfg hfind hexp hrow]
      rfl
    · intro ht
      have hexp : isCacheExpired (t0 + cfg.CACHE_TTL_HOURS * MS_PER_HOUR) t1
          = true := by
        simp [isCacheExpired]
        omega
      exact getCachedAnalysis_expired cfg t1 a.market a.ticker a.timeframe _ _
        hcfg hfind hexp

/-- A concrete valid analysis used by witnesses and counterexamples. -/
def sampleAnalysis : IStockAnalysis :=
  { ticker := "AAPL"
    market := "US"
    timeframe := "3M"
    analysis_date := "2026-10-11"
    prediction :=
      { direction := "bullish", probability := 72, price_target_low := 185,
        price_target_high := 210, current_price := 178 }
    metrics :=
      { rsi := 58, macd := "positive", pe_ratio := 28.5,
        volume_trend := "increasing" }
    risk_level := "medium"
    summary := "Strong momentum."
    key_factors := ["Services growth"]
    confidence := "high" }

/-- Claim C5, witness: a concrete write at t0 = 0 into an empty store with a
24-hour TTL, read back at 1000 ms (hit, equal to what was written) and at
exactly the expiry instant 86400000 ms (absent). -/
theorem claim5_witness :
    (getCachedAnalysis noFaults ⟨false, true, 24⟩ 1000 "US" "AAPL" "3M"
        (saveAnalysis noFaults ⟨false, true, 24⟩ 0 sampleAnalysis sampleAnalysis
          ⟨[], [], 1⟩).2).1 = some sampleAnalysis
      ∧ (getCachedAnalysis noFaults ⟨false, true, 24⟩ 86400000 "US" "AAPL" "3M"
          (saveAnalysis noFaults ⟨false, true, 24⟩ 0 sampleAnalysis sampleAnalysis
            ⟨[], [], 1⟩).2).1 = none :=
  ⟨(claim5_cache_roundtrip.2 ⟨false, true, 24⟩ ⟨[], [], 1⟩ sampleAnalysis 0 1000
      rfl (fun r hr => absurd hr (List.not_mem_nil r))).1
      (by norm_num [MS_PER_HOUR]),
   (claim5_cache_roundtrip.2 ⟨false, true, 24⟩ ⟨[], [], 1⟩ sampleAnalysis 0
      86400000 rfl (fun r hr => absurd hr (List.not_mem_nil r))).2
      (by norm_num [MS_PER_HOUR])⟩

theorem countP_le_one_of_nodup (keys : List String) (K : String)
    (h : keys.Nodup) : keys.countP (fun k => k == K) ≤ 1 := by
  induction keys with
  | nil => simp
  | cons a tl ih =>
      rw [List.countP_cons]
      rcases List.nodup_cons.mp h with ⟨ha, htl⟩
      by_cases hak : (a == K : Bool)
      · have h0 : tl.countP (fun k => k == K) = 0 := by
          rw [List.countP_eq_zero]
          intro x hx hxk
          apply ha
          have hx1 : x = K := by simpa using hxk
          have ha1 : a = K := by simpa using hak
          rw [ha1, ← hx1]
          exact hx
        simp [h0, hak]
      · simp [hak]
        exact ih htl

theorem upsert_unique (c : List CacheEntry) (e : CacheEntry)
    (hnd : (c.map CacheEntry.cache_key).Nodup) :
    ((upsertCache c e).map CacheEntry.cache_key).Nodup
      ∧ (upsertCache c e).countP (fun x => x.cache_key == e.cache_key) = 1 := by
  unfold upsertCache
  by_cases hany : c.any (fun x => x.cache_key == e.cache_key)
  · rw [if_pos hany]
    have hmap : (c.map (fun x => if x.cache_key == e.cache_key then e else x)).map
        CacheEntry.cache_key = c.map CacheEntry.cache_key := by
      rw [List.map_map]
      apply List.map_congr_left
      intro x hx
      by_cases hk : (x.cache_key == e.cache_key : Bool)
      · have : x.cache_key = e.cache_key := by simpa using hk
        simp [Function.comp, hk, this]
      · simp [Function.comp, hk]
    refine ⟨by rw [hmap]; exact hnd, ?_⟩
    rw [List.countP_map]
    have hcong : c.countP
        ((fun x => x.cache_key == e.cache_key)
          ∘ (fun x => if x.cache_key == e.cache_key then e else x))
        = c.countP (fun x => x.cache_key == e.cache_key) := by
      apply List.countP_congr
      intro x hx
      by_cases hk : (x.cache_key == e.cache_key : Bool) <;>
        simp [Function.comp, hk]
    rw [hcong]
    have hkeys : c.countP (fun x => x.cache_key == e.cache_key)
        = (c.map CacheEntry.cache_key).countP (fun k => k == e.cache_key) := by
      rw [List.countP_map]
      rfl
    have hle : c.countP (fun x => x.cache_key == e.cache_key) ≤ 1 := by
      rw [hkeys]
      exact countP_le_one_of_nodup _ _ hnd
    have hpos : 0 < c.countP (fun x => x.cache_key == e.cache_key) := by
      rw [List.countP_pos_iff]
      obtain ⟨x, hx, hxe⟩ := List.any_eq_true.mp hany
      exact ⟨x, hx, hxe⟩
    omega
  · rw [if_neg hany]
    constructor
    · rw [List.map_append]
      apply List.Nodup.append hnd (List.nodup_singleton _)
      intro a ha hb
      have hb1 : a = e.cache_key := by simpa using hb
      obtain ⟨x, hx, hxa⟩ := List.mem_map.mp ha
      apply hany
      exact List.any_eq_true.mpr ⟨x, hx, by simp [hxa, hb1]⟩
    · rw [List.countP_append]
      have h0 : c.countP (fun x => x.cache_key == e.cache_key) = 0 := by
        rw [List.countP_eq_zero]
        intro x hx hxk
        exact hany (List.any_eq_true.mpr ⟨x, hx, hxk⟩)
      simp [h0]

/-- Claim C9: the cache key is exactly `market ++ ":" ++ ticker ++ ":" ++
timeframe`, and the cache-index upsert keyed on `cache_key` keeps at most one
live entry per key: under the key-uniqueness invariant, an upsert leaves the
keys duplicate-free with exactly one entry for the written key (superseding,
never appending a second), and `saveAnalysis` preserves the invariant. -/
theorem claim9_cache_key_upsert :
    (∀ market ticker timeframe,
       generateCacheKey market ticker timeframe
         = market ++ ":" ++ ticker ++ ":" ++ timeframe)
    ∧ (∀ (c : List CacheEntry) (e : CacheEntry),
        (c.map CacheEntry.cache_key).Nodup →
        ((upsertCache c e).map CacheEntry.cache_key).Nodup
          ∧ (upsertCache c e).countP (fun x => x.cache_key == e.cache_key) = 1)
    ∧ (∀ (f : Faults) (cfg : Config) (now : Nat) (a raw : IStockAnalysis)
        (st : Store),
        (st.cache.map CacheEntry.cache_key).Nodup →
        ((saveAnalysis f cfg now a raw st).2.cache.map CacheEntry.cache_key).Nodup) := by
  refine ⟨fun market ticker timeframe => rfl, upsert_unique, ?_⟩
  intro f cfg now a raw st hnd
  unfold saveAnalysis
  by_cases hc : cfg.supabaseConfigured
  · simp only [hc, Bool.not_true, Bool.false_eq_true, if_false]
    by_cases hi : f.insertFails
    · simp [hi]
      exact hnd
    · simp only [hi, Bool.false_eq_true, if_false]
      by_cases hu : f.cacheUpsertFails
      · simp [hu]
        exact hnd
      · simp only [hu, Bool.false_eq_true, if_false]
        exact (upsert_unique st.cache _ hnd).1
  · simp [hc]
    exact hnd

/-- Claim C9, witness: upserting a fresh entry into a one-entry cache with a
different key appends (two distinct keys, one match), and upserting an entry
with the same key supersedes it (still a single entry). -/
theorem claim9_witness :
    ((upsertCache [⟨"US:AAPL:3M", 1, 5⟩] ⟨"US:MSFT:1M", 2, 9⟩).map
        CacheEntry.cache_key).Nodup
      ∧ (upsertCache [⟨"US:AAPL:3M", 1, 5⟩] ⟨"US:AAPL:3M", 7, 9⟩).countP
          (fun x => x.cache_key == "US:AAPL:3M") = 1 :=
  ⟨(claim9_cache_key_upsert.2.1 [⟨"US:AAPL:3M", 1, 5⟩] ⟨"US:MSFT:1M", 2, 9⟩
      (by simp)).1,
   (claim9_cache_key_upsert.2.1 [⟨"US:AAPL:3M", 1, 5⟩] ⟨"US:AAPL:3M", 7, 9⟩
      (by simp)).2⟩

/-- The configuration of a process with a database configured but no AI
credential: `validateEnv` auto-enables demo mode. -/
def demoCfg : Config := ⟨validateEnvDemoMode false false, true, 24⟩

/-- A store holding a live cache entry for "US:AAPL:3M" (reachable in demo
mode with a configured database, since `getOrCreateAnalysis` saves mock
analyses too). -/
def demoHitStore : Store :=
  ⟨[withId (analysisToDbRow sampleAnalysis sampleAnalysis) 1 0],
   [⟨"US:AAPL:3M", 1, 86400000⟩], 2⟩

/-- Claim C3, counterexample to the claim as stated: with no AI credential
(demo mode on) and a configured database, a cache hit returns
`demoMode = false`, not the process demo-mode flag. -/
theorem claim3_counterexample :
    demoCfg.DEMO_MODE = true
      ∧ (getOrCreateAnalysis noFaults demoCfg 0 "US" "AAPL" "3M"
          (.ok sampleAnalysis) demoHitStore).1
          = .ok ⟨sampleAnalysis, true, false⟩ :=
  ⟨rfl, rfl⟩

/-- Claim C3 (amended): the `demoMode` field of `getOrCreateAnalysis` equals
the process demo-mode flag only when the analysis was freshly generated
(`cached = false`); on a cache hit (`cached = true`) `demoMode` is hardcoded
`false`, regardless of the flag. -/
theorem claim3_demo_flag (f : Faults) (cfg : Config) (now : Nat)
    (market ticker timeframe : String) (gen : Except String IStockAnalysis)
    (st : Store) (r : OrchResult) (st2 : Store)
    (h : getOrCreateAnalysis f cfg now market ticker timeframe gen st
          = (.ok r, st2)) :
    (r.cached = false → r.demoMode = cfg.DEMO_MODE)
      ∧ (r.cached = true → r.demoMode = false) := by
  unfold getOrCreateAnalysis at h
  split at h
  · injection h with h1 h2
    injection h1 with h1
    subst h1
    exact ⟨fun hc => by simp at hc, fun hc => rfl⟩
  · split at h
    · injection h with h1 h2
      injection h1
    · injection h with h1 h2
      injection h1 with h1
      subst h1
      exact ⟨fun hc => rfl, fun hc => by simp at hc⟩

/-- A process with demo mode forced on and no database. -/
def cfgNoDb : Config := ⟨true, false, 24⟩

def emptyStore : Store := ⟨[], [], 1⟩

/-- Claim C3, witness: the amended theorem applied to a fresh-generation run
in demo mode without a database: the reported `demoMode` equals the flag. -/
theorem claim3_witness :
    (OrchResult.mk sampleAnalysis false true).demoMode = cfgNoDb.DEMO_MODE :=
  (claim3_demo_flag noFaults cfgNoDb 0 "US" "AAPL" "3M" (.ok sampleAnalysis)
    emptyStore ⟨sampleAnalysis, false, true⟩ emptyStore rfl).1 rfl

theorem getOrCreate_fresh (f : Faults) (cfg : Config) (now : Nat)
    (market ticker timeframe : String) (fresh : IStockAnalysis) (st : Store)
    (hmiss : (if cfg.supabaseConfigured then
                getCachedAnalysis f cfg now market ticker timeframe st
              else (none, st)).1 = none) :
    (getOrCreateAnalysis f cfg now market ticker timeframe (.ok fresh) st).1
      = .ok ⟨fresh, false, cfg.DEMO_MODE⟩ := by
  unfold getOrCreateAnalysis
  rcases hsc : (if cfg.supabaseConfigured then
      getCachedAnalysis f cfg now market ticker timeframe st
    else (none, st)) with ⟨o, st1⟩
  rw [hsc] at hmiss
  simp only at hmiss
  subst hmiss
  rfl

/-- Claim C7: on a cache miss, for every combination of persistence-write
failures (insert error, cache-upsert error), `getOrCreateAnalysis` still
resolves successfully with the fresh analysis and `cached = false` — the
fire-and-forget save never propagates a failure to the caller and never
changes the returned analysis. -/
theorem claim7_write_failures_isolated (f : Faults) (cfg : Config) (now : Nat)
    (market ticker timeframe : String) (fresh : IStockAnalysis) (st : Store)
    (hmiss : (if cfg.supabaseConfigured then
                getCachedAnalysis f cfg now market ticker timeframe st
              else (none, st)).1 = none) :
    (getOrCreateAnalysis f cfg now market ticker timeframe (.ok fresh) st).1
      = .ok ⟨fresh, false, cfg.DEMO_MODE⟩ :=
  getOrCreate_fresh f cfg now market ticker timeframe fresh st hmiss

/-- Claim C7, witness: both write faults injected (insert error and cache
upsert error) with a configured database and an empty cache — the caller
still receives the fresh analysis with `cached = false`. -/
theorem claim7_witness :
    (getOrCreateAnalysis ⟨true, true, false⟩ ⟨false, true, 24⟩ 0 "US" "AAPL" "3M"
        (.ok sampleAnalysis) emptyStore).1
      = .ok ⟨sampleAnalysis, false, false⟩ :=
  claim7_write_failures_isolated ⟨true, true, false⟩ ⟨false, true, 24⟩ 0
    "US" "AAPL" "3M" sampleAnalysis emptyStore rfl

/-! ## The demo-mode mock generator -/

/-- JS `x || d` for an optional number: `0` is falsy. -/
def jsOrNum (x : Option Rat) (d : Rat) : Rat :=
  match x with
  | some v => if v == 0 then d else v
  | none => d

/-- JS `x || d` for an optional string: the empty string is falsy. -/
def jsOrStr (x : Option String) (d : String) : String :=
  match x with
  | some v => if v == "" then d else v
  | none => d

/-- JS `x || d` for an optional array: arrays are always truthy. -/
def jsOrList (x : Option (List String)) (d : List String) : List String :=
  match x with
  | some v => v
  | none => d

/-- An entry of `MOCK_DATA` (`Partial<IStockAnalysis>`: the top-level fields
are optional, nested objects are complete). -/
structure MockPartial where
  prediction : Option IPrediction
  metrics : Option IMetrics
  risk_level : Option String
  confidence : Option String
  summary : Option String
  key_factors : Option (List String)
  deriving DecidableEq

/-- The `MOCK_DATA` table of the demo-mode service. -/
def MOCK_DATA : List (String × MockPartial) :=
  [("AAPL",
    { prediction := some ⟨"bullish", 72, 185, 210, 178⟩
      metrics := some ⟨58, "positive", 28.5, "increasing"⟩
      risk_level := some "medium", confidence := some "high"
      summary := some "Apple continues to show strong momentum driven by iPhone sales and services growth. AI integration in upcoming products could be a major catalyst."
      key_factors := some ["Strong iPhone 15 sales", "Services revenue growth", "AI features in iOS 18", "Stock buyback program"] }),
   ("MSFT",
    { prediction := some ⟨"bullish", 78, 420, 480, 415⟩
      metrics := some ⟨62, "positive", 35.2, "stable"⟩
      risk_level := some "low", confidence := some "high"
      summary := some "Microsoft benefits from Azure cloud growth and Copilot AI integration across products. Enterprise demand remains strong."
      key_factors := some ["Azure cloud growth 29%", "Copilot AI adoption", "Office 365 expansion", "Gaming division growth"] }),
   ("NVDA",
    { prediction := some ⟨"bullish", 68, 800, 950, 875⟩
      metrics := some ⟨71, "positive", 65.3, "increasing"⟩
      risk_level := some "high", confidence := some "medium"
      summary := some "NVIDIA dominates AI chip market but high valuation brings volatility risk. Data center demand continues to exceed supply."
      key_factors := some ["AI chip demand surge", "Data center revenue growth", "High valuation concerns", "Competition from AMD"] }),
   ("GOOGL",
    { prediction := some ⟨"bullish", 65, 155, 180, 152⟩
      metrics := some ⟨52, "neutral", 24.8, "stable"⟩
      risk_level := some "medium", confidence := some "medium"
      summary := some "Google faces AI competition but maintains strong search dominance. Cloud growth and YouTube ads provide diversification."
      key_factors := some ["Search market dominance", "Gemini AI development", "YouTube ad recovery", "Antitrust concerns"] }),
   ("TSLA",
    { prediction := some ⟨"neutral", 50, 180, 250, 215⟩
      metrics := some ⟨45, "negative", 58.7, "decreasing"⟩
      risk_level := some "high", confidence := some "low"
      summary := some "Tesla faces margin pressure from price cuts and increased competition. FSD and energy storage offer long-term potential."
      key_factors := some ["EV price competition", "Margin compression", "FSD progress", "Energy storage growth"] }),
   ("ASELS.IS",
    { prediction := some ⟨"bullish", 70, 85, 105, 82⟩
      metrics := some ⟨55, "positive", 18.5, "increasing"⟩
      risk_level := some "medium", confidence := some "high"
      summary := some "ASELSAN benefits from increased defense spending and new export contracts. Strong order backlog supports growth outlook."
      key_factors := some ["New defense contracts", "Export market expansion", "R&D investments", "Government support"] }),
   ("THYAO.IS",
    { prediction := some ⟨"bullish", 68, 280, 340, 275⟩
      metrics := some ⟨58, "positive", 5.2, "stable"⟩
      risk_level := some "medium", confidence := some "medium"
      summary := some "Turkish Airlines shows strong passenger growth and cargo demand. New fleet deliveries and hub expansion drive capacity."
      key_factors := some ["Passenger traffic growth", "Cargo revenue increase", "Fleet expansion", "Istanbul hub advantage"] }),
   ("GARAN.IS",
    { prediction := some ⟨"neutral", 55, 95, 120, 105⟩
      metrics := some ⟨48, "neutral", 3.8, "stable"⟩
      risk_level := some "medium", confidence := some "medium"
      summary := some "Garanti BBVA maintains solid fundamentals but faces macro uncertainty. Interest rate environment impacts net interest margin."
      key_factors := some ["Interest rate sensitivity", "Asset quality stable", "Digital banking growth", "Currency volatility"] })]

/-- The draws `generateRandomMockData` takes from `Math.random`, each already
mapped through the floor/scaling the source applies: the three list indices
are in `Fin 3`, the probability summand in `Fin 30` (`floor(random()*30)`),
the rsi summand in `Fin 40`; `basePrice` stands for `50 + random()*200` and
`peR` for `random()*30`. -/
structure MockRand where
  dirIdx : Fin 3
  basePrice : Rat
  probR : Fin 30
  rsiR : Fin 40
  peR : Rat
  volIdx : Fin 3
  riskIdx : Fin 3

/-- `Math.round(q * 100) / 100`. -/
def round2 (q : Rat) : Rat := ((round (q * 100) : Int) : Rat) / 100

/-- `Math.round(q * 10) / 10`. -/
def round1 (q : Rat) : Rat := ((round (q * 10) : Int) : Rat) / 10

def directionsList : List String := ["bullish", "bearish", "neutral"]

def volumeTrendsList : List String := ["increasing", "decreasing", "stable"]

def riskLevelsList : List String := ["low", "medium", "high"]

/-- `generateRandomMockData` from the demo-mode service. -/
def generateRandomMockData (ticker : String) (sector : Option String)
    (r : MockRand) : MockPartial :=
  { prediction := some
      { direction := directionsList.get ⟨r.dirIdx.val, r.dirIdx.isLt⟩
        probability := 45 + (r.probR.val : Rat)
        price_target_low := round2 (r.basePrice * 0.9)
        price_target_high := round2 (r.basePrice * 1.15)
        current_price := round2 r.basePrice }
    metrics := some
      { rsi := 30 + (r.rsiR.val : Rat)
        macd :=
          if directionsList.get ⟨r.dirIdx.val, r.dirIdx.isLt⟩ == "bullish"
          then "positive"
          else if directionsList.get ⟨r.dirIdx.val, r.dirIdx.isLt⟩ == "bearish"
          then "negative" else "neutral"
        pe_ratio := round1 (10 + r.peR)
        volume_trend := volumeTrendsList.get ⟨r.volIdx.val, r.volIdx.isLt⟩ }
    risk_level := some (riskLevelsList.get ⟨r.riskIdx.val, r.riskIdx.isLt⟩)
    confidence := some "low"
    summary := some (ticker ++ " in " ++ jsOrStr sector "unknown"
      ++ " sector. This is demo data - connect Anthropic API for real AI analysis.")
    key_factors := some ["Demo mode", "Simulated metrics", "API not connected"] }

/-- `generateMockAnalysis` from the demo-mode service: predefined table data
or random data, probability adjusted by the timeframe offset and clamped into
[30, 95], every top-level field defaulted through JS `||`. -/
def generateMockAnalysis (ticker market timeframe today : String)
    (sector : Option String) (r : MockRand) : IStockAnalysis :=
  let mockData := (MOCK_DATA.lookup ticker).getD
    (generateRandomMockData ticker sector r)
  let timeframeAdjustment : Rat :=
    if timeframe == "1M" then 5 else if timeframe == "3M" then 0 else -5
  let adjustedProbability : Rat := min 95 (max 30
    (jsOrNum (mockData.prediction.map (fun p => p.probability)) 60
      + timeframeAdjustment))
  { ticker := ticker
    market := market
    timeframe := timeframe
    analysis_date := today
    prediction :=
      { direction := jsOrStr (mockData.prediction.map (fun p => p.direction))
          "neutral"
        probability := adjustedProbability
        price_target_low :=
          jsOrNum (mockData.prediction.map (fun p => p.price_target_low)) 100
        price_target_high :=
          jsOrNum (mockData.prediction.map (fun p => p.price_target_high)) 120
        current_price :=
          jsOrNum (mockData.prediction.map (fun p => p.current_price)) 110 }
    metrics :=
      { rsi := jsOrNum (mockData.metrics.map (fun m => m.rsi)) 50
        macd := jsOrStr (mockData.metrics.map (fun m => m.macd)) "neutral"
        pe_ratio := jsOrNum (mockData.metrics.map (fun m => m.pe_ratio)) 15
        volume_trend :=
          jsOrStr (mockData.metrics.map (fun m => m.volume_trend)) "stable" }
    risk_level := jsOrStr mockData.risk_level "medium"
    summary := jsOrStr mockData.summary (ticker
      ++ " analysis is currently in demo mode. Connect Anthropic API for real AI-powered insights.")
    key_factors := jsOrList mockData.key_factors
      ["Demo mode active", "Connect API for real analysis", "Market data simulated"]
    confidence := jsOrStr mockData.confidence "medium" }

/-- The demo-mode `analyzeStock` of the second service variant: in demo mode
it sleeps and returns the mock analysis, never consulting the upstream path
(`nonDemo` stands for the real-API retry loop, whatever it would do). -/
def analyzeStockDemo (cfg : Config) (ticker market timeframe today : String)
    (sector : Option String) (r : MockRand)
    (nonDemo : Except String IStockAnalysis) : Except String IStockAnalysis :=
  if cfg.DEMO_MODE then
    .ok (generateMockAnalysis ticker market timeframe today sector r)
  else nonDemo

/-- Structural validity of an analysis record as the spec states it: every
enum field in its listed set, probability and rsi in [0, 100]. -/
def validStockAnalysis (a : IStockAnalysis) : Prop :=
  a.prediction.direction ∈ (["bullish", "bearish", "neutral"] : List String)
    ∧ a.metrics.macd ∈ (["positive", "negative", "neutral"] : List String)
    ∧ a.metrics.volume_trend
        ∈ (["increasing", "decreasing", "stable"] : List String)
    ∧ a.risk_level ∈ (["low", "medium", "high"] : List String)
    ∧ a.confidence ∈ (["low", "medium", "high"] : List String)
    ∧ 0 ≤ a.prediction.probability ∧ a.prediction.probability ≤ 100
    ∧ 0 ≤ a.metrics.rsi ∧ a.metrics.rsi ≤ 100

/-- The facts about a `MockPartial` needed for validity of the assembled
record. -/
def MockOK (pm : MockPartial) : Prop :=
  (∀ p, pm.prediction = some p →
     p.direction ∈ (["bullish", "bearish", "neutral"] : List String))
    ∧ (∀ m, pm.metrics = some m →
        (0 : Rat) ≤ m.rsi ∧ m.rsi ≤ 100
          ∧ m.macd ∈ (["positive", "negative", "neutral"] : List String)
          ∧ m.volume_trend
              ∈ (["increasing", "decreasing", "stable"] : List String))
    ∧ (∀ s, pm.risk_level = some s →
        s ∈ (["low", "medium", "high"] : List String))
    ∧ (∀ s, pm.confidence = some s →
        s ∈ (["low", "medium", "high"] : List String))

theorem tableOK : ∀ kv ∈ MOCK_DATA, MockOK kv.2 := by
  intro kv hkv
  fin_cases hkv <;>
    exact ⟨fun p hp => by injection hp with h; rw [← h]; decide,
           fun m hm => by injection hm with h; rw [← h]; decide,
           fun s hs => by injection hs with h; rw [← h]; decide,
           fun s hs => by injection hs with h; rw [← h]; decide⟩

theorem randomOK (ticker : String) (sector : Option String) (r : MockRand) :
    MockOK (generateRandomMockData ticker sector r) := by
  refine ⟨fun p hp => ?_, fun m hm => ?_, fun s hs => ?_, fun s hs => ?_⟩
  · injection hp with h
    rw [← h]
    exact List.get_mem _ _ _
  · injection hm with h
    rw [← h]
    refine ⟨by positivity, ?_, ?_, List.get_mem _ _ _⟩
    · have h40 : ((r.rsiR.val : Nat) : Rat) < 40 := by
        exact_mod_cast r.rsiR.isLt
      show (30 : Rat) + (r.rsiR.val : Rat) ≤ 100
      linarith
    · show (if directionsList.get ⟨r.dirIdx.val, r.dirIdx.isLt⟩ == "bullish"
            then "positive"
            else if directionsList.get ⟨r.dirIdx.val, r.dirIdx.isLt⟩ == "bearish"
            then "negative" else "neutral")
          ∈ (["positive", "negative", "neutral"] : List String)
      split
      · decide
      · split <;> decide
  · injection hs with h
    rw [← h]
    exact List.get_mem _ _ _
  · injection hs with h
    rw [← h]
    decide

theorem lookup_pair_mem {β : Type} (l : List (String × β)) (k : String) (v : β)
    (h : l.lookup k = some v) : (k, v) ∈ l := by
  obtain ⟨l1, l2, hl, _⟩ := List.lookup_eq_some_iff.mp h
  subst hl
  exact List.mem_append_right _ (List.mem_cons_self _ _)

theorem jsOrStr_mem (x : Option String) (d : String) (S : List String)
    (hd : d ∈ S) (hx : ∀ v, x = some v → v ∈ S) : jsOrStr x d ∈ S := by
  cases x with
  | none => simpa [jsOrStr] using hd
  | some v =>
      by_cases hv : (v == "" : Bool)
      · simp only [jsOrStr, hv, if_true]
        exact hd
      · simp only [jsOrStr, hv, if_false]
        exact hx v rfl

theorem jsOrNum_bound (x : Option Rat) (d lo hi : Rat)
    (hlo : lo ≤ d) (hhi : d ≤ hi)
    (hx : ∀ v, x = some v → lo ≤ v ∧ v ≤ hi) :
    lo ≤ jsOrNum x d ∧ jsOrNum x d ≤ hi := by
  cases x with
  | none => exact ⟨hlo, hhi⟩
  | some v =>
      by_cases hv : (v == (0 : Rat) : Bool)
      · simp only [jsOrNum, hv, if_true]
        exact ⟨hlo, hhi⟩
      · simp only [jsOrNum, hv, if_false]
        exact hx v rfl

theorem clamp_bounds (q : Rat) :
    30 ≤ min 95 (max 30 q) ∧ min 95 (max 30 q) ≤ 95 :=
  ⟨le_min (by norm_num) (le_max_left _ _), min_le_left _ _⟩

theorem mockData_OK (ticker : String) (sector : Option String) (r : MockRand) :
    MockOK ((MOCK_DATA.lookup ticker).getD
      (generateRandomMockData ticker sector r)) := by
  rcases hlk : MOCK_DATA.lookup ticker with _ | pm
  · simpa using randomOK ticker sector r
  · have hmem := lookup_pair_mem MOCK_DATA ticker pm hlk
    simpa using tableOK (ticker, pm) hmem

theorem generateMockAnalysis_valid (ticker market timeframe today : String)
    (sector : Option String) (r : MockRand) :
    validStockAnalysis (generateMockAnalysis ticker market timeframe today
        sector r)
      ∧ 30 ≤ (generateMockAnalysis ticker market timeframe today sector
          r).prediction.probability
      ∧ (generateMockAnalysis ticker market timeframe today sector
          r).prediction.probability ≤ 95 := by
  obtain ⟨hdir, hmet, hrisk, hconf⟩ := mockData_OK ticker sector r
  have hprob := clamp_bounds
    (jsOrNum (((MOCK_DATA.lookup ticker).getD
        (generateRandomMockData ticker sector r)).prediction.map
        (fun p => p.probability)) 60
      + (if timeframe == "1M" then (5 : Rat)
         else if timeframe == "3M" then 0 else -5))
  have hrsi : (0 : Rat) ≤ jsOrNum (((MOCK_DATA.lookup ticker).getD
        (generateRandomMockData ticker sector r)).metrics.map
        (fun m => m.rsi)) 50
      ∧ jsOrNum (((MOCK_DATA.lookup ticker).getD
          (generateRandomMockData ticker sector r)).metrics.map
          (fun m => m.rsi)) 50 ≤ 100 := by
    apply jsOrNum_bound _ _ _ _ (by norm_num) (by norm_num)
    intro v hv
    obtain ⟨m, hm, hmv⟩ := Option.map_eq_some'.mp hv
    obtain ⟨h1, h2, _, _⟩ := hmet m hm
    rw [← hmv]
    exact ⟨h1, h2⟩
  refine ⟨⟨?_, ?_, ?_, ?_, ?_, ?_, ?_, ?_, ?_⟩, hprob.1, hprob.2⟩
  · apply jsOrStr_mem _ _ _ (by decide)
    intro v hv
    obtain ⟨p, hp, hpv⟩ := Option.map_eq_some'.mp hv
    rw [← hpv]
    exact hdir p hp
  · apply jsOrStr_mem _ _ _ (by decide)
    intro v hv
    obtain ⟨m, hm, hmv⟩ := Option.map_eq_some'.mp hv
    rw [← hmv]
    exact (hmet m hm).2.2.1
  · apply jsOrStr_mem _ _ _ (by decide)
    intro v hv
    obtain ⟨m, hm, hmv⟩ := Option.map_eq_some'.mp hv
    rw [← hmv]
    exact (hmet m hm).2.2.2
  · exact jsOrStr_mem _ _ _ (by decide) hrisk
  · exact jsOrStr_mem _ _ _ (by decide) hconf
  · exact le_trans (by norm_num) hprob.1
  · exact le_trans hprob.2 (by norm_num)
  · exact hrsi.1
  · exact hrsi.2

/-- A second valid analysis, for the MSFT 1M slot. -/
def sampleAnalysisMsft : IStockAnalysis :=
  { ticker := "MSFT"
    market := "US"
    timeframe := "1M"
    analysis_date := "2026-10-11"
    prediction :=
      { direction := "bullish", probability := 78, price_target_low := 420,
        price_target_high := 480, current_price := 415 }
    metrics :=
      { rsi := 62, macd := "positive", pe_ratio := 35.2,
        volume_trend := "stable" }
    risk_level := "low"
    summary := "Azure growth."
    key_factors := ["Copilot adoption"]
    confidence := "high" }

/-- A store holding a live cache entry for "US:MSFT:1M". -/
def demoHitStoreMsft : Store :=
  ⟨[withId (analysisToDbRow sampleAnalysisMsft sampleAnalysisMsft) 1 0],
   [⟨"US:MSFT:1M", 1, 86400000⟩], 2⟩

/-- A concrete bundle of random draws. -/
def r0 : MockRand := ⟨0, 120, 0, 0, 7, 0, 0⟩

/-- Claim C6, counterexample to the claim as stated: with no AI credential
configured (demo mode auto-enabled) but a database configured, a cache hit
makes the Orchestrator report `demoMode = false`, not `true`. -/
theorem claim6_counterexample :
    demoCfg.DEMO_MODE = true
      ∧ (getOrCreateAnalysis noFaults demoCfg 0 "US" "MSFT" "1M"
          (.ok sampleAnalysisMsft) demoHitStoreMsft).1
          = .ok ⟨sampleAnalysisMsft, true, false⟩ :=
  ⟨rfl, rfl⟩

/-- Claim C6 (amended): with demo mode active (as when no AI credential is
configured), generation always succeeds — it returns the mock analysis
without consulting the real-API path — and the mock analysis is structurally
valid: every enum field in its listed set, rsi in [0,100], and probability
clamped into [30,95] after the timeframe offset; the Orchestrator reports
`demoMode = true` whenever the analysis is freshly generated (a cache hit,
possible when a database is configured, reports `demoMode = false`). -/
theorem claim6_demo_totality :
    (∀ (cfg : Config) (ticker market timeframe today : String)
       (sector : Option String) (r : MockRand)
       (nonDemo : Except String IStockAnalysis),
       cfg.DEMO_MODE = true →
       analyzeStockDemo cfg ticker market timeframe today sector r nonDemo
         = .ok (generateMockAnalysis ticker market timeframe today sector r))
    ∧ (∀ (ticker market timeframe today : String) (sector : Option String)
        (r : MockRand),
        validStockAnalysis
            (generateMockAnalysis ticker market timeframe today sector r)
          ∧ 30 ≤ (generateMockAnalysis ticker market timeframe today sector
              r).prediction.probability
          ∧ (generateMockAnalysis ticker market timeframe today sector
              r).prediction.probability ≤ 95)
    ∧ (∀ (f : Faults) (cfg : Config) (now : Nat)
        (market ticker timeframe today : String) (sector : Option String)
        (r : MockRand) (nonDemo : Except String IStockAnalysis) (st : Store),
        cfg.DEMO_MODE = true →
        (if cfg.supabaseConfigured then
           getCachedAnalysis f cfg now market ticker timeframe st
         else (none, st)).1 = none →
        (getOrCreateAnalysis f cfg now market ticker timeframe
            (analyzeStockDemo cfg ticker market timeframe today sector r nonDemo)
            st).1
          = .ok ⟨generateMockAnalysis ticker market timeframe today sector r,
                 false, true⟩) := by
  have hgen : ∀ (cfg : Config) (ticker market timeframe today : String)
      (sector : Option String) (r : MockRand)
      (nonDemo : Except String IStockAnalysis),
      cfg.DEMO_MODE = true →
      analyzeStockDemo cfg ticker market timeframe today sector r nonDemo
        = .ok (generateMockAnalysis ticker market timeframe today sector r) := by
    intro cfg ticker market timeframe today sector r nonDemo hd
    simp [analyzeStockDemo, hd]
  refine ⟨hgen, generateMockAnalysis_valid, ?_⟩
  intro f cfg now market ticker timeframe today sector r nonDemo st hd hmiss
  rw [hgen cfg ticker market timeframe today sector r nonDemo hd]
  rw [getOrCreate_fresh f cfg now market ticker timeframe _ st hmiss, hd]

/-- Claim C6, witness: the amended theorem applied in demo mode without a
database: the orchestrator resolves with the mock analysis, `cached = false`
and `demoMode = true`, and the mock analysis is structurally valid. -/
theorem claim6_witness :
    (getOrCreateAnalysis noFaults cfgNoDb 0 "US" "AAPL" "3M"
        (analyzeStockDemo cfgNoDb "AAPL" "US" "3M" "2026-10-11" none r0
          (.error "unused")) emptyStore).1
      = .ok ⟨generateMockAnalysis "AAPL" "US" "3M" "2026-10-11" none r0,
             false, true⟩
    ∧ validStockAnalysis
        (generateMockAnalysis "AAPL" "US" "3M" "2026-10-11" none r0) :=
  ⟨claim6_demo_totality.2.2 noFaults cfgNoDb 0 "US" "AAPL" "3M" "2026-10-11"
     none r0 (.error "unused") emptyStore rfl rfl,
   (claim6_demo_totality.2.1 "AAPL" "US" "3M" "2026-10-11" none r0).1⟩

/-! ## Stock lists and the bulk controller loop -/

/-- `IStockInfo` from the stocks config. -/
structure StockInfo where
  ticker : String
  name : String
  sector : String
  deriving DecidableEq

/-- `BIST_STOCKS` from the stocks config. -/
def BIST_STOCKS : List StockInfo :=
  [⟨"ASELS.IS", "Aselsan", "Defense"⟩,
   ⟨"THYAO.IS", "Turkish Airlines", "Airlines"⟩,
   ⟨"GARAN.IS", "Garanti BBVA", "Banking"⟩,
   ⟨"AKBNK.IS", "Akbank", "Banking"⟩,
   ⟨"YKBNK.IS", "Yapi Kredi", "Banking"⟩,
   ⟨"ISCTR.IS", "Is Bank", "Banking"⟩,
   ⟨"KCHOL.IS", "Koc Holding", "Conglomerate"⟩,
   ⟨"SAHOL.IS", "Sabanci Holding", "Conglomerate"⟩,
   ⟨"EREGL.IS", "Erdemir", "Steel"⟩,
   ⟨"BIMAS.IS", "BIM", "Retail"⟩,
   ⟨"SISE.IS", "Sisecam", "Glass & Chemicals"⟩,
   ⟨"TUPRS.IS", "Tupras", "Energy"⟩,
   ⟨"TCELL.IS", "Turkcell", "Telecom"⟩,
   ⟨"PGSUS.IS", "Pegasus Airlines", "Airlines"⟩,
   ⟨"VESTL.IS", "Vestel", "Electronics"⟩]

/-- `US_STOCKS` from the stocks config. -/
def US_STOCKS : List StockInfo :=
  [⟨"AAPL", "Apple Inc.", "Technology"⟩,
   ⟨"MSFT", "Microsoft", "Technology"⟩,
   ⟨"NVDA", "NVIDIA", "Semiconductors"⟩,
   ⟨"GOOGL", "Alphabet", "Technology"⟩,
   ⟨"AMZN", "Amazon", "E-commerce"⟩,
   ⟨"META", "Meta Platforms", "Technology"⟩,
   ⟨"TSLA", "Tesla", "Automotive"⟩,
   ⟨"JPM", "JPMorgan Chase", "Banking"⟩,
   ⟨"V", "Visa", "Financial Services"⟩,
   ⟨"JNJ", "Johnson & Johnson", "Healthcare"⟩,
   ⟨"UNH", "UnitedHealth", "Healthcare"⟩,
   ⟨"HD", "Home Depot", "Retail"⟩,
   ⟨"PG", "Procter & Gamble", "Consumer Goods"⟩,
   ⟨"DIS", "Walt Disney", "Entertainment"⟩,
   ⟨"NFLX", "Netflix", "Entertainment"⟩]

/-- `getStocksByMarket` from the stocks config. -/
def getStocksByMarket (market : String) : List StockInfo :=
  if market == "BIST" then BIST_STOCKS else US_STOCKS

/-- `isValidTicker` from the stocks config. -/
def isValidTicker (market ticker : String) : Bool :=
  (getStocksByMarket market).any (fun s => s.ticker == ticker)

/-- One (market, ticker, timeframe) triple of the bulk request body. -/
structure BulkItem where
  market : String
  ticker : String
  timeframe : String
  deriving DecidableEq

/-- One element of the controller's `results` array. -/
structure BulkResultItem where
  ticker : String
  market : String
  success : Bool
  err : Option String
  payload : Option (IStockAnalysis × Bool)
  deriving DecidableEq

/-- The observable state of a bulk run: a virtual clock, the per-item
results in order, and the time span of each generation call. -/
structure BulkState where
  time : Nat
  results : List BulkResultItem
  spans : List (Nat × Nat)
  deriving DecidableEq

/-- One iteration of the controller's `for (const item of tickers)` loop:
an invalid ticker pushes a failure result without calling the orchestrator
(and without advancing time); otherwise the awaited `getOrCreateAnalysis`
call occupies `[time, time + dur i)` (its outcome and duration abstracted by
the oracles `gen` and `dur`), pushing a success or failure result — a thrown
error is caught and recorded, never aborting the loop. -/
def bulkStep (gen : Nat → Except String (IStockAnalysis × Bool))
    (dur : Nat → Nat) (acc : BulkState) (idxItem : Nat × BulkItem) :
    BulkState :=
  if !isValidTicker idxItem.2.market idxItem.2.ticker then
    { acc with
      results := acc.results ++
        [⟨idxItem.2.ticker, idxItem.2.market, false,
          some ("Invalid ticker " ++ idxItem.2.ticker ++ " for market "
            ++ idxItem.2.market), none⟩] }
  else
    match gen idxItem.1 with
    | .ok ac =>
        { time := acc.time + dur idxItem.1
          results := acc.results ++
            [⟨idxItem.2.ticker, idxItem.2.market, true, none, some ac⟩]
          spans := acc.spans ++ [(acc.time, acc.time + dur idxItem.1)] }
    | .error e =>
        { time := acc.time + dur idxItem.1
          results := acc.results ++
            [⟨idxItem.2.ticker, idxItem.2.market, false, some e, none⟩]
          spans := acc.spans ++ [(acc.time, acc.time + dur idxItem.1)] }

/-- `getBulkAnalysis` from the analysis controller, as the sequential fold of
the loop body over the (index, item) list, starting at time 0 with no
results. -/
def getBulkAnalysis (gen : Nat → Except String (IStockAnalysis × Bool))
    (dur : Nat → Nat) (items : List BulkItem) : BulkState :=
  items.enum.foldl (bulkStep gen dur) ⟨0, [], []⟩

/-- Invariant carried through the bulk fold: spans are well-formed, each
begins exactly where the previous one ended, and the last one ends at the
clock. -/
def spansInv (b : BulkState) : Prop :=
  (∀ s ∈ b.spans, s.1 ≤ s.2)
    ∧ List.Chain' (fun s1 s2 => s2.1 = s1.2) b.spans
    ∧ (∀ s, b.spans.getLast? = some s → s.2 = b.time)

theorem bulkStep_inv (gen : Nat → Except String (IStockAnalysis × Bool))
    (dur : Nat → Nat) (acc : BulkState) (x : Nat × BulkItem)
    (h : spansInv acc) : spansInv (bulkStep gen dur acc x) := by
  obtain ⟨h1, h2, h3⟩ := h
  unfold bulkStep
  split
  · exact ⟨h1, h2, h3⟩
  · have key : spansInv
        { time := acc.time + dur x.1
          results := acc.results
          spans := acc.spans ++ [(acc.time, acc.time + dur x.1)] } := by
      refine ⟨?_, ?_, ?_⟩
      · intro s hs
        rcases List.mem_append.mp hs with hs | hs
        · exact h1 s hs
        · simp at hs
          simp [hs]
      · rw [List.chain'_append]
        refine ⟨h2, List.chain'_singleton _, ?_⟩
        intro s hs y hy
        have hs2 : acc.spans.getLast? = some s := hs
        have hy2 : ((acc.time, acc.time + dur x.1) : Nat × Nat) = y := by
          simpa using hy
        rw [← hy2]
        exact (h3 s hs2).symm
      · intro s hs
        have hs2 : ((acc.time, acc.time + dur x.1) : Nat × Nat) = s := by
          simpa using hs
        rw [← hs2]
    split
    · exact ⟨key.1, key.2.1, key.2.2⟩
    · exact ⟨key.1, key.2.1, key.2.2⟩

theorem bulkFold_inv (gen : Nat → Except String (IStockAnalysis × Bool))
    (dur : Nat → Nat) :
    ∀ (l : List (Nat × BulkItem)) (acc : BulkState),
      spansInv acc → spansInv (l.foldl (bulkStep gen dur) acc) := by
  intro l
  induction l with
  | nil => intro acc h; exact h
  | cons x tl ih =>
      intro acc h
      rw [List.foldl_cons]
      exact ih _ (bulkStep_inv gen dur acc x h)

theorem bulkFold_length (gen : Nat → Except String (IStockAnalysis × Bool))
    (dur : Nat → Nat) :
    ∀ (l : List (Nat × BulkItem)) (acc : BulkState),
      (l.foldl (bulkStep gen dur) acc).results.length
        = acc.results.length + l.length := by
  intro l
  induction l with
  | nil => intro acc; simp
  | cons x tl ih =>
      intro acc
      rw [List.foldl_cons, ih]
      have hstep : (bulkStep gen dur acc x).results.length
          = acc.results.length + 1 := by
        unfold bulkStep
        split
        · simp
        · split <;> simp
      rw [hstep]
      simp [List.length_cons]
      omega

/-- Claim C8 (amended): the schema-bounded bulk operation (1 to 10 items)
returns exactly one success/failure result per input item rather than
aborting on a failing item, and processes generations strictly sequentially:
each generation interval begins exactly where the previous one ended — no
two generations overlap in time, and there is no inter-item delay between
them. -/
theorem claim8_bulk_sequential
    (gen : Nat → Except String (IStockAnalysis × Bool)) (dur : Nat → Nat)
    (items : List BulkItem) (_hmin : 1 ≤ items.length)
    (_hmax : items.length ≤ 10) :
    (getBulkAnalysis gen dur items).results.length = items.length
      ∧ (∀ s ∈ (getBulkAnalysis gen dur items).spans, s.1 ≤ s.2)
      ∧ List.Chain' (fun s1 s2 => s2.1 = s1.2)
          (getBulkAnalysis gen dur items).spans
      ∧ List.Chain' (fun s1 s2 => s1.2 ≤ s2.1)
          (getBulkAnalysis gen dur items).spans := by
  have hinv : spansInv (getBulkAnalysis gen dur items) := by
    apply bulkFold_inv
    exact ⟨fun s hs => absurd hs (List.not_mem_nil s),
           List.chain'_nil,
           fun s hs => by simp at hs⟩
  have hlen : (getBulkAnalysis gen dur items).results.length = items.length := by
    unfold getBulkAnalysis
    rw [bulkFold_length]
    simp
  refine ⟨hlen, hinv.1, hinv.2.1, ?_⟩
  exact List.Chain'.imp (fun s1 s2 h => le_of_eq h.symm) hinv.2.1

def bulkGenEx : Nat → Except String (IStockAnalysis × Bool) :=
  fun _ => .ok (sampleAnalysis, false)

def bulkItemsEx : List BulkItem :=
  [⟨"US", "AAPL", "3M"⟩, ⟨"US", "BOGUS", "3M"⟩, ⟨"US", "MSFT", "1M"⟩]

/-- Claim C8, counterexample to the claim as stated: in a 3-item bulk run
whose 2nd item is invalid, all 3 per-item results are produced and the two
generations are sequential — but the second generation starts at the very
instant the first ends: there is no (positive) fixed inter-item delay in the
loop, which runs its iterations back to back. -/
theorem claim8_counterexample :
    (getBulkAnalysis bulkGenEx (fun _ => 5) bulkItemsEx).results.map
        (fun rr => rr.success) = [true, false, true]
      ∧ (getBulkAnalysis bulkGenEx (fun _ => 5) bulkItemsEx).spans
          = [(0, 5), (5, 10)]
      ∧ ((getBulkAnalysis bulkGenEx (fun _ => 5) bulkItemsEx).spans.getD 1
          (0, 0)).1
          = ((getBulkAnalysis bulkGenEx (fun _ => 5) bulkItemsEx).spans.getD 0
              (0, 0)).2
      ∧ ¬(((getBulkAnalysis bulkGenEx (fun _ => 5) bulkItemsEx).spans.getD 0
            (0, 0)).2 + 1
          ≤ ((getBulkAnalysis bulkGenEx (fun _ => 5) bulkItemsEx).spans.getD 1
              (0, 0)).1) :=
  ⟨rfl, rfl, rfl, by decide⟩

/-- Claim C8, witness: the amended theorem applied to the concrete 3-item
run. -/
theorem claim8_witness :
    (getBulkAnalysis bulkGenEx (fun _ => 5) bulkItemsEx).results.length
        = bulkItemsEx.length
      ∧ List.Chain' (fun s1 s2 => s1.2 ≤ s2.1)
          (getBulkAnalysis bulkGenEx (fun _ => 5) bulkItemsEx).spans :=
  ⟨(claim8_bulk_sequential bulkGenEx (fun _ => 5) bulkItemsEx (by decide)
      (by decide)).1,
   (claim8_bulk_sequential bulkGenEx (fun _ => 5) bulkItemsEx (by decide)
      (by decide)).2.2.2⟩

end FinTrack
